import Mathlib

/-!
Shallow embedding of the TwistedDebate V4 debate orchestration engine
(`app/facilitator.py`, `app/models.py`, `app/config.py`, `app/server.py`,
`utils/ollama_client.py`) together with theorems settling the spec claims.

Modelling conventions:
- Python floats in this code base only ever hold exact decimal values
  (0.5-step arithmetic, decimal sampling parameters), so they are embedded
  as rationals.
- Python strings are embedded as Lean `String` (both are sequences of
  unicode code points; Python `s[:n]` is `String.take s n`, `len` is
  `String.length`).
- The Ollama generation backend is an oracle
  `gen : prompt -> model -> params -> Except OllamaError String`;
  `OllamaClient.generate` raises `OllamaConnectionError` for unreachable
  servers / missing models and `OllamaGenerationError` for timeouts and
  other request failures (`utils/ollama_client.py`, lines 170-197).
- Python exceptions escaping a handler are modelled with `Except PyError`.
- `datetime.utcnow().isoformat()` is abstracted as an opaque string
  parameter `now` (no claim mentions timestamps).
-/

-- ===== Data model (app/models.py) =====

/-- Debate formats (`models.DebateFormat`). -/
inductive DebateFormat where
  | ONE_TO_ONE
  | CROSS_EXAM
  | MANY_ON_ONE
  | PANEL
  | ROUND_ROBIN
deriving DecidableEq

/-- Distortion modes (`models.DistortionMode`). -/
inductive DistortionMode where
  | ECHO_ER
  | INVERT_ER
  | WHAT_IF_ER
  | SO_WHAT_ER
  | CUCUMB_ER
  | ARCHIV_ER
deriving DecidableEq

/-- Tone styles (`models.DistortionTone`). -/
inductive DistortionTone where
  | NEUTRAL
  | TECHNICAL
  | PRIMAL
  | POETIC
  | SATIRICAL
deriving DecidableEq

/-- Convergence status indicator (`models.ConvergenceStatus`). -/
inductive ConvergenceStatus where
  | CONVERGING
  | DIVERGING
  | STABLE
  | UNKNOWN
deriving DecidableEq

/-- Sensitivity level indicator (`models.SensitivityLevel`). -/
inductive SensitivityLevel where
  | LOW
  | MEDIUM
  | HIGH
deriving DecidableEq

/-- Bias level indicator (`models.BiasLevel`). -/
inductive BiasLevel where
  | LOW
  | NEUTRAL
  | HIGH
deriving DecidableEq

/-- String value of a distortion mode (`DistortionMode(str, Enum)` `.value`). -/
def DistortionMode.value : DistortionMode → String
  | .ECHO_ER => "echo_er"
  | .INVERT_ER => "invert_er"
  | .WHAT_IF_ER => "what_if_er"
  | .SO_WHAT_ER => "so_what_er"
  | .CUCUMB_ER => "cucumb_er"
  | .ARCHIV_ER => "archiv_er"

/-- String value of a tone (`DistortionTone(str, Enum)` `.value`). -/
def DistortionTone.value : DistortionTone → String
  | .NEUTRAL => "neutral"
  | .TECHNICAL => "technical"
  | .PRIMAL => "primal"
  | .POETIC => "poetic"
  | .SATIRICAL => "satirical"

/-- Configuration for a single participant (`models.ParticipantConfig`). -/
structure ParticipantConfig where
  role : String
  label : String
  model : String
  mode : DistortionMode
  tone : DistortionTone
deriving DecidableEq

/-- A single message in the debate transcript (`models.DebateMessage`).
`iteration` and `timestamp` are `Optional` in the pydantic model but the
facilitator supplies both on every message it creates, so they are embedded
as plain fields. -/
structure DebateMessage where
  speaker : String
  content : String
  role : String
  iteration : Nat
  timestamp : String
deriving DecidableEq

/-- A key statement summary (`models.KeyStatement`). -/
structure KeyStatement where
  speaker : String
  text : String
  iteration : Nat
deriving DecidableEq

/-- Metrics tracking debate progress (`models.DebateMetrics`).
`iteration` is an unconstrained Python `int` (the server's
`AnalyzeDebateRequest.iteration` has no bound), hence `Int`.
None of the optional fields carries a range constraint in the source. -/
structure DebateMetrics where
  iteration : Int
  status : String
  agreementScore : Option ℚ
  convergenceStatus : Option ConvergenceStatus
  emotionalSensitivity : Option SensitivityLevel
  biasLevel : Option BiasLevel
  topicDrift : Option SensitivityLevel
deriving DecidableEq

-- ===== Configuration constants (app/config.py) =====

/-- Maximum iterations per debate (`config.MAX_DEBATE_ITERATIONS`). -/
def MAX_DEBATE_ITERATIONS : Nat := 3

/-- Agreement threshold for convergence (`config.CONVERGENCE_THRESHOLD`). -/
def CONVERGENCE_THRESHOLD : ℚ := 8

/-- Ollama sampling parameters (the per-gain dict values of
`config.GAIN_TO_PARAMS`). -/
structure OllamaParams where
  temperature : ℚ
  top_p : ℚ
  top_k : Nat
deriving DecidableEq

/-- Sampling parameters for a gain level (`config.get_ollama_params`):
the gain is clamped to `[MIN_GAIN, MAX_GAIN] = [1, 10]` and then looked up
in the `GAIN_TO_PARAMS` table; the clamp makes the chain of comparisons
below exhaustive (the final branch is the gain-10 entry). -/
def get_ollama_params (gain : Int) : OllamaParams :=
  let g := max 1 (min 10 gain)
  if g = 1 then ⟨0.3, 0.7, 20⟩
  else if g = 2 then ⟨0.4, 0.75, 25⟩
  else if g = 3 then ⟨0.5, 0.8, 30⟩
  else if g = 4 then ⟨0.6, 0.85, 35⟩
  else if g = 5 then ⟨0.7, 0.9, 40⟩
  else if g = 6 then ⟨0.8, 0.92, 45⟩
  else if g = 7 then ⟨0.9, 0.94, 50⟩
  else if g = 8 then ⟨1.0, 0.95, 60⟩
  else if g = 9 then ⟨1.1, 0.97, 70⟩
  else ⟨1.2, 0.99, 80⟩

-- ===== Prompt templates (app/config.py), as `.format` substitutions =====

/-- The mode prompt of `config.MODE_PROMPTS[mode]` with `{text}` filled in. -/
def MODE_PROMPTS (mode : DistortionMode) (text : String) : String :=
  match mode with
  | .ECHO_ER =>
    "You are an ECHO_ER - you amplify positive aspects and opportunities.\n\nYour role: Take the input and highlight strengths, opportunities, and positive potentials. Reverberate what\x27s working and what could work even better. You\x27re an optimist who sees possibilities. Keep your response in 100 words or less.\n\nInput: " ++ text ++ "\n\nRespond with your ECHO_ER perspective:"
  | .INVERT_ER =>
    "You are an INVERT_ER - you challenge assumptions and flip perspectives.\n\nYour role: Take the input and negate it, point out what\x27s missing, flip the polarity. Question the premise, identify blind spots, and reveal the opposite view. You\x27re a critical thinker who sees what others miss. Keep your response in 100 words or less.\n\nInput: " ++ text ++ "\n\nRespond with your INVERT_ER perspective:"
  | .WHAT_IF_ER =>
    "You are a WHAT_IF_ER - you explore alternative scenarios and possibilities.\n\nYour role: Take the input and hypothesize new directions. Ask \"what if?\" questions, imagine different futures, explore unconventional paths. You\x27re a creative thinker who reimagines possibilities. Keep your response in 100 words or less.\n\nInput: " ++ text ++ "\n\nRespond with your WHAT_IF_ER perspective:"
  | .SO_WHAT_ER =>
    "You are a SO_WHAT_ER - you question implications and consequences.\n\nYour role: Take the input and probe its significance. Ask \"so what?\" and \"what are the implications?\" Challenge whether it matters and explore downstream effects. You\x27re a pragmatist who demands real-world impact. Keep your response in 100 words or less.\n\nInput: " ++ text ++ "\n\nRespond with your SO_WHAT_ER perspective:"
  | .CUCUMB_ER =>
    "You are a CUCUMB_ER - you provide cool, analytical perspective.\n\nYour role: Take the input and analyze it with academic rigor. Stay calm, objective, and systematic. Break it down methodically, cite relevant frameworks, maintain scholarly distance. You\x27re a composed academic who stays cool under pressure. Keep your response in 100 words or less.\n\nInput: " ++ text ++ "\n\nRespond with your CUCUMB_ER perspective:"
  | .ARCHIV_ER =>
    "You are an ARCHIV_ER - you provide historical context and parallels.\n\nYour role: Take the input and connect it to history, prior works, literature, and past patterns. You\x27re a librarian of ideas who sees echoes and precedents. Bring depth through historical and literary perspective. Keep your response in 100 words or less.\n\nInput: " ++ text ++ "\n\nRespond with your ARCHIV_ER perspective:"

/-- Tone instruction lookup (`config.TONE_INSTRUCTIONS[tone]`). -/
def TONE_INSTRUCTIONS (tone : DistortionTone) : String :=
  match tone with
  | .NEUTRAL => "Use clear, standard language. Be direct and straightforward."
  | .TECHNICAL => "Use precise, technical language. Include jargon and analytical terms where appropriate."
  | .PRIMAL => "Be concise and punchy. Use short sentences. Be direct and forceful."
  | .POETIC => "Use lyrical, metaphorical language. Be expressive and evocative."
  | .SATIRICAL => "Use wit, irony, and humor. Be clever and engaging."

/-- `config.ONE_TO_ONE_DEBATE_PROMPT.format(...)`. -/
def ONE_TO_ONE_DEBATE_PROMPT (participant_name role mode tone topic previous_context opponent_name opponent_statement : String) : String :=
  "You are " ++ participant_name ++ ", participating in a one-to-one debate.\n\nYour configuration:\n- Role: " ++ role ++ "\n- Distortion Mode: " ++ mode ++ "\n- Tone: " ++ tone ++ "\n\nDebate Topic:\n" ++ topic ++ "\n\n" ++ previous_context ++ "\n\n" ++ opponent_name ++ " just said:\n" ++ opponent_statement ++ "\n\nGenerate your response in less than 100 words. Stay true to your role and maintain your " ++ mode ++ " perspective with a " ++ tone ++ " tone. Be argumentative but constructive. Aim to persuade while acknowledging valid points.\n\nYour response:"

/-- `config.CROSS_EXAMINATION_PROMPT.format(...)` (note the trailing blank
after `{role}` present in the source template). -/
def CROSS_EXAMINATION_PROMPT (participant_name role mode tone topic previous_context other_perspective instruction : String) : String :=
  "You are " ++ participant_name ++ ", participating in a cross-examination.\n\nYour configuration:\n- Role: " ++ role ++ " \n- Distortion Mode: " ++ mode ++ "\n- Tone: " ++ tone ++ "\n\nTopic:\n" ++ topic ++ "\n\n" ++ previous_context ++ "\n\n" ++ other_perspective ++ "\n\n" ++ instruction ++ "\n\nKeep your response in less than 100 words\n\nYour response:"

/-- `config.MANY_ON_ONE_PROMPT.format(...)`. -/
def MANY_ON_ONE_PROMPT (participant_name role mode tone topic previous_context current_situation instruction : String) : String :=
  "You are " ++ participant_name ++ ", participating in a many-on-one examination.\n\nYour configuration:\n- Role: " ++ role ++ "\n- Distortion Mode: " ++ mode ++ "\n- Tone: " ++ tone ++ "\n\nTopic:\n" ++ topic ++ "\n\n" ++ previous_context ++ "\n\n" ++ current_situation ++ "\n\n" ++ instruction ++ "\n\nKeep your response in less than 100 words\n\nYour response:"

/-- `config.PANEL_DISCUSSION_PROMPT.format(...)`. -/
def PANEL_DISCUSSION_PROMPT (participant_name role mode tone topic moderator_guidance previous_statements instruction : String) : String :=
  "You are " ++ participant_name ++ ", participating in a panel discussion.\n\nYour configuration:\n- Role: " ++ role ++ "\n- Distortion Mode: " ++ mode ++ "\n- Tone: " ++ tone ++ "\n\nTopic:\n" ++ topic ++ "\n\n" ++ moderator_guidance ++ "\n\n" ++ previous_statements ++ "\n\n" ++ instruction ++ "\n\nKeep your response in less than 100 words\n\nYour response:"

/-- `config.ROUND_ROBIN_PROMPT.format(...)`. -/
def ROUND_ROBIN_PROMPT (participant_name mode tone topic previous_statements : String) : String :=
  "You are " ++ participant_name ++ ", participating in a round-robin discussion.\n\nYour configuration:\n- Distortion Mode: " ++ mode ++ "\n- Tone: " ++ tone ++ "\n\nTopic:\n" ++ topic ++ "\n\n" ++ previous_statements ++ "\n\nIt\x27s your turn. Contribute your perspective, respond to others\x27 points, and advance the discussion. Stay true to your " ++ mode ++ " mode with a " ++ tone ++ " tone. Keep your response in less than 100 words.\n\nYour response:"

/-- `config.MODERATOR_PROMPT.format(...)`. -/
def MODERATOR_PROMPT (topic previous_statements instruction : String) : String :=
  "You are the MODERATOR of a panel discussion.\n\nTopic:\n" ++ topic ++ "\n\n" ++ previous_statements ++ "\n\nYour responsibilities:\n1. Facilitate balanced discussion\n2. Identify key points of agreement and disagreement\n3. Ask clarifying questions\n4. Summarize progress periodically\n5. Guide toward productive conclusions\n\n" ++ instruction ++ "\n\nKeep your response in less than 100 words\n\nYour moderation:"

-- ===== Generator Client boundary (utils/ollama_client.py) =====

/-- Failures raised by `OllamaClient.generate`: `OllamaConnectionError`
(server unreachable, model not found) and `OllamaGenerationError`
(timeout, any other request failure); the payload is Python `str(e)`. -/
inductive OllamaError where
  | connectionError (msg : String)
  | generationError (msg : String)
deriving DecidableEq

/-- Python `str(e)` for an `OllamaError`. -/
def OllamaError.message : OllamaError → String
  | .connectionError m => m
  | .generationError m => m

/-- The generation backend as an oracle: prompt, model, sampling params to
either generated text or a raised `OllamaError`. -/
abbrev GenOracle := String → String → OllamaParams → Except OllamaError String

-- ===== Python-level helpers =====

/-- Model of Python `l[-n:]` for `n >= 0`: the last `n` elements, or the
whole list when `n = 0` (since `l[-0:]` is `l[0:]`). -/
def pyTail (n : Nat) (l : List α) : List α :=
  if n = 0 then l else l.drop (l.length - n)

/-- Model of Python `str.split(sep)` for a single-character separator,
over the code-point list: splits at every occurrence of `sep`,
yielding `[[]]` on the empty string. -/
def pySplitChar (sep : Char) : List Char → List (List Char)
  | [] => [[]]
  | c :: cs =>
    match pySplitChar sep cs with
    | [] => [[]]
    | seg :: segs => if c = sep then [] :: seg :: segs else (c :: seg) :: segs

/-- Model of Python `s.split(sep)` on strings (single-character separator). -/
def pySplit (sep : Char) (s : String) : List String :=
  (pySplitChar sep s.data).map String.mk

-- ===== Facilitator helper methods (app/facilitator.py) =====

/-- `Facilitator._build_context` (facilitator.py 714-722): an empty message
list yields the sentinel; otherwise each message renders as
`speaker: content[:300]...` and the renderings are joined by blank lines. -/
def build_context (messages : List DebateMessage) : String :=
  match messages with
  | [] => "(No previous context)"
  | _ =>
    String.intercalate "\n\n"
      (messages.map (fun msg => msg.speaker ++ ": " ++ msg.content.take 300 ++ "..."))

/-- `Facilitator._analyze_debate` (facilitator.py 724-746): the heuristic
metrics estimator. -/
def analyze_debate (_topic : String) (_messages : List DebateMessage) (iteration : Nat) : DebateMetrics :=
  let agreementScore : ℚ := min (5.0 + ((iteration : ℚ) * 0.5)) 10.0
  { iteration := (iteration : Int)
  , status := if iteration < MAX_DEBATE_ITERATIONS then "In Progress" else "Completed"
  , agreementScore := some agreementScore
  , convergenceStatus := some (if agreementScore > 7 then ConvergenceStatus.CONVERGING else ConvergenceStatus.DIVERGING)
  , emotionalSensitivity := some SensitivityLevel.MEDIUM
  , biasLevel := some BiasLevel.NEUTRAL
  , topicDrift := some SensitivityLevel.LOW }

/-- `Facilitator._extract_key_statements` (facilitator.py 748-764): keep the
first `split('.')` segment of each message plus a period, only when strictly
longer than 20 characters, truncated to 100 characters. -/
def extract_key_statements (messages : List DebateMessage) (iteration : Nat) : List KeyStatement :=
  messages.filterMap fun msg =>
    let first_sentence := ((pySplit '.' msg.content).headD "") ++ "."
    if first_sentence.length > 20 then
      some { speaker := msg.speaker, text := first_sentence.take 100, iteration := iteration }
    else
      none

/-- `Facilitator._generate_with_params` (facilitator.py 658-676): delegate
to the Ollama client with gain-derived sampling parameters; any raised
exception is caught and replaced by a visible placeholder string embedding
`str(e)`. -/
def generate_with_params (gen : GenOracle) (prompt : String) (model : String) (gain : Int) : String :=
  let params := get_ollama_params gain
  match gen prompt model params with
  | .ok result => result
  | .error e => "[Error generating response: " ++ e.message ++ "]"

/-- `Facilitator._generate_with_mode_tone` (facilitator.py 644-656). -/
def generate_with_mode_tone (gen : GenOracle) (prompt : String) (participant : ParticipantConfig) (gain : Int) : String :=
  let mode_prompt := MODE_PROMPTS participant.mode prompt
  let tone_instruction := TONE_INSTRUCTIONS participant.tone
  let full_prompt := mode_prompt ++ "\n\n" ++ tone_instruction
  generate_with_params gen full_prompt participant.model gain

/-- `Facilitator._generate_one_to_one_response` (facilitator.py 621-642). -/
def generate_one_to_one_response (gen : GenOracle) (participant : ParticipantConfig) (topic : String) (opponent : ParticipantConfig) (opponent_statement : String) (previous_context : String) (gain : Int) : String :=
  let prompt := ONE_TO_ONE_DEBATE_PROMPT participant.label participant.role
    participant.mode.value participant.tone.value topic previous_context
    opponent.label (if opponent_statement = "" then "(Opening statement)" else opponent_statement)
  generate_with_params gen prompt participant.model gain

/-- `Facilitator._generate_moderator_opening` (facilitator.py 678-691). -/
def generate_moderator_opening (gen : GenOracle) (topic : String) (moderator : ParticipantConfig) (gain : Int) : String :=
  let prompt := MODERATOR_PROMPT topic ""
    "Open the panel discussion. Introduce the topic and set the tone for productive dialogue."
  generate_with_params gen prompt moderator.model gain

/-- `Facilitator._generate_moderator_summary` (facilitator.py 693-712). -/
def generate_moderator_summary (gen : GenOracle) (topic : String) (recent_messages : List DebateMessage) (moderator : ParticipantConfig) (gain : Int) : String :=
  let previous_statements := String.intercalate "\n\n"
    (recent_messages.map (fun msg => msg.speaker ++ ": " ++ msg.content.take 200 ++ "..."))
  let prompt := MODERATOR_PROMPT topic previous_statements
    "Summarize key points, identify areas of agreement/disagreement, and guide the next phase of discussion."
  generate_with_params gen prompt moderator.model gain

-- ===== Result shape and error model =====

/-- Python exceptions escaping a format handler: the explicit `ValueError`
raised on bad cardinality, the `IndexError` from `participants[0]` on an
empty list, and the `NameError` from reading the loop variable `iteration`
after a `for` loop that never ran. -/
inductive PyError where
  | valueError (msg : String)
  | indexError (msg : String)
  | nameError (msg : String)
deriving DecidableEq

/-- The dict returned by each `Facilitator._run_*` handler. -/
structure DebateResult where
  topic : String
  format : DebateFormat
  participants : List ParticipantConfig
  messages : List DebateMessage
  metrics : DebateMetrics
  keyStatements : List KeyStatement
  completed : Bool
  convergenceReached : Bool
deriving DecidableEq

/-- The expression `metrics.agreementScore >= config.CONVERGENCE_THRESHOLD
if metrics.agreementScore else False` shared by the one-to-one, panel and
round-robin handlers; Python truthiness makes both `None` and `0.0` take
the `False` branch. -/
def convergence_reached_of (metrics : DebateMetrics) : Bool :=
  match metrics.agreementScore with
  | none => false
  | some s => if s = 0 then false else decide (s ≥ CONVERGENCE_THRESHOLD)

/-- Post-condition transformer: `P` holds of the result whenever the run
returned one (trivially true when the run raised). -/
def resultOk (P : DebateResult → Prop) : Except PyError DebateResult → Prop
  | .ok r => P r
  | .error _ => True

-- ===== One-to-one (facilitator.py 149-271) =====

/-- Loop-carried state of `_run_one_to_one_debate`. -/
structure OneToOneState where
  messages : List DebateMessage
  key_statements : List KeyStatement
  previous_context : String
  opponent_statement : String

/-- One iteration body plus the remaining iterations of the
`for iteration in range(1, max_iterations + 1)` loop of
`_run_one_to_one_debate` (facilitator.py 186-257), entered at iteration
`iter` with `fuel` iterations left to run.  Returns the final state and
the final value of the Python loop variable `iteration` (the iteration of
the `break`, or the last iteration when the loop runs to completion). -/
def one_to_one_loop (gen : GenOracle) (topic : String) (debater1 debater2 : ParticipantConfig)
    (gain : Int) (now : String) : Nat → Nat → OneToOneState → OneToOneState × Nat
  | 0, iter, st => (st, iter - 1)
  | fuel + 1, iter, st =>
    if debater1.model ≠ "USER" then
      let response1 := generate_one_to_one_response gen debater1 topic debater2
        st.opponent_statement st.previous_context gain
      let messages1 := st.messages ++
        [{ speaker := debater1.label, content := response1, role := debater1.role
         , iteration := iter, timestamp := now }]
      let st1 : OneToOneState :=
        { messages := messages1, key_statements := st.key_statements
        , previous_context := build_context (pyTail 3 messages1)
        , opponent_statement := response1 }
      if debater2.model ≠ "USER" then
        let response2 := generate_one_to_one_response gen debater2 topic debater1
          st1.opponent_statement st1.previous_context gain
        let messages2 := st1.messages ++
          [{ speaker := debater2.label, content := response2, role := debater2.role
           , iteration := iter, timestamp := now }]
        let st2 : OneToOneState :=
          { messages := messages2
          , key_statements := st1.key_statements ++
              (if iter % 2 = 0 then extract_key_statements (pyTail 4 messages2) iter else [])
          , previous_context := build_context (pyTail 3 messages2)
          , opponent_statement := response2 }
        one_to_one_loop gen topic debater1 debater2 gain now fuel (iter + 1) st2
      else
        let messages2 := st1.messages ++
          [{ speaker := debater2.label, content := "[Awaiting user input]", role := "user-pending"
           , iteration := iter, timestamp := now }]
        ({ st1 with messages := messages2 }, iter)
    else
      let messages1 := st.messages ++
        [{ speaker := debater1.label, content := "[Awaiting user input]", role := "user-pending"
         , iteration := iter, timestamp := now }]
      ({ st with messages := messages1 }, iter)

/-- `Facilitator._run_one_to_one_debate` (facilitator.py 149-271).  With
`max_iterations = 0` the loop never runs and the Python code crashes with
a `NameError` reading `iteration` at line 260. -/
def run_one_to_one_debate (gen : GenOracle) (topic : String)
    (participants : List ParticipantConfig) (max_iterations : Nat) (gain : Int)
    (now : String) : Except PyError DebateResult :=
  match participants with
  | [debater1, debater2] =>
    let has_user := debater1.model = "USER" ∨ debater2.model = "USER"
    match max_iterations with
    | 0 => .error (.nameError "iteration")
    | _ + 1 =>
      let init : OneToOneState :=
        { messages := [], key_statements := [], previous_context := "", opponent_statement := "" }
      let result := one_to_one_loop gen topic debater1 debater2 gain now max_iterations 1 init
      let st := result.1
      let iteration := result.2
      let metrics := analyze_debate topic st.messages iteration
      .ok { topic := topic
          , format := DebateFormat.ONE_TO_ONE
          , participants := participants
          , messages := st.messages
          , metrics := metrics
          , keyStatements := st.key_statements
          , completed := !has_user || decide (iteration ≥ max_iterations)
          , convergenceReached := convergence_reached_of metrics }
  | _ => .error (.valueError "One-to-one debate requires exactly 2 participants")

-- ===== Cross-examination (facilitator.py 273-367) =====

/-- Last element of the transcript, Python `messages[-1]`; only evaluated
on non-empty lists in the source (an opening entry always precedes it). -/
def lastMessage (messages : List DebateMessage) : DebateMessage :=
  messages.getLastD { speaker := "", content := "", role := "", iteration := 0, timestamp := "" }

/-- The `for iteration in range(1, max_iterations + 1)` loop of
`_run_cross_examination` (facilitator.py 308-353). -/
def cross_exam_loop (gen : GenOracle) (topic : String) (examiner examinee : ParticipantConfig)
    (gain : Int) (now : String) : Nat → Nat → List DebateMessage → List DebateMessage
  | 0, _, messages => messages
  | fuel + 1, iter, messages =>
    let question_prompt := CROSS_EXAMINATION_PROMPT examiner.label examiner.role
      examiner.mode.value examiner.tone.value topic
      (build_context (pyTail 3 messages)) (lastMessage messages).content
      "Generate a probing question or challenge to the examinee\x27s position."
    let question := generate_with_params gen question_prompt examiner.model gain
    let messages1 := messages ++
      [{ speaker := examiner.label, content := question, role := examiner.role
       , iteration := iter, timestamp := now }]
    let response_prompt := CROSS_EXAMINATION_PROMPT examinee.label examinee.role
      examinee.mode.value examinee.tone.value topic
      (build_context (pyTail 3 messages1)) question
      "Respond to the examiner\x27s question or challenge. Defend or refine your position."
    let response := generate_with_params gen response_prompt examinee.model gain
    let messages2 := messages1 ++
      [{ speaker := examinee.label, content := response, role := examinee.role
       , iteration := iter, timestamp := now }]
    cross_exam_loop gen topic examiner examinee gain now fuel (iter + 1) messages2

/-- `Facilitator._run_cross_examination` (facilitator.py 273-367). -/
def run_cross_examination (gen : GenOracle) (topic : String)
    (participants : List ParticipantConfig) (max_iterations : Nat) (gain : Int)
    (now : String) : Except PyError DebateResult :=
  match participants with
  | [examiner, examinee] =>
    let initial_statement := generate_with_mode_tone gen
      ("State your position on: " ++ topic) examinee gain
    let messages0 : List DebateMessage :=
      [{ speaker := examinee.label, content := initial_statement, role := examinee.role
       , iteration := 0, timestamp := now }]
    let messages := cross_exam_loop gen topic examiner examinee gain now max_iterations 1 messages0
    let metrics := analyze_debate topic messages max_iterations
    let key_statements := extract_key_statements messages max_iterations
    .ok { topic := topic
        , format := DebateFormat.CROSS_EXAM
        , participants := participants
        , messages := messages
        , metrics := metrics
        , keyStatements := key_statements
        , completed := true
        , convergenceReached := false }
  | _ => .error (.valueError "Cross-examination requires exactly 2 participants (examiner and examinee)")

-- ===== Many-on-one (facilitator.py 369-469) =====

/-- The inner `for examiner in examiners` loop of `_run_many_on_one`
(facilitator.py 408-428): each examiner asks one question. -/
def many_on_one_questions (gen : GenOracle) (topic : String) (gain : Int) (now : String)
    (iter : Nat) : List ParticipantConfig → List DebateMessage → List DebateMessage
  | [], messages => messages
  | examiner :: rest, messages =>
    let question_prompt := MANY_ON_ONE_PROMPT examiner.label examiner.role
      examiner.mode.value examiner.tone.value topic
      (build_context (pyTail 5 messages))
      ("Examinee\x27s current position: " ++ (lastMessage messages).content.take 200 ++ "...")
      "Ask a probing question or present a challenge."
    let question := generate_with_params gen question_prompt examiner.model gain
    let messages1 := messages ++
      [{ speaker := examiner.label, content := question, role := examiner.role
       , iteration := iter, timestamp := now }]
    many_on_one_questions gen topic gain now iter rest messages1

/-- The `for iteration in range(1, max_iterations + 1)` loop of
`_run_many_on_one` (facilitator.py 404-455). -/
def many_on_one_loop (gen : GenOracle) (topic : String) (examinee : ParticipantConfig)
    (examiners : List ParticipantConfig) (gain : Int) (now : String) :
    Nat → Nat → List DebateMessage → List DebateMessage
  | 0, _, messages => messages
  | fuel + 1, iter, messages =>
    let messages1 := many_on_one_questions gen topic gain now iter examiners messages
    let all_questions := String.intercalate "\n\n"
      ((pyTail examiners.length messages1).map (fun msg => msg.speaker ++ ": " ++ msg.content))
    let response_prompt := MANY_ON_ONE_PROMPT examinee.label examinee.role
      examinee.mode.value examinee.tone.value topic
      (build_context (pyTail 10 messages1))
      ("Questions from examiners:\n" ++ all_questions)
      "Respond to all examiners\x27 questions and challenges."
    let response := generate_with_params gen response_prompt examinee.model gain
    let messages2 := messages1 ++
      [{ speaker := examinee.label, content := response, role := examinee.role
       , iteration := iter, timestamp := now }]
    many_on_one_loop gen topic examinee examiners gain now fuel (iter + 1) messages2

/-- `Facilitator._run_many_on_one` (facilitator.py 369-469).  There is no
cardinality check: `participants[0]` raises `IndexError` on an empty list,
and a single participant yields an examination with zero examiners. -/
def run_many_on_one (gen : GenOracle) (topic : String)
    (participants : List ParticipantConfig) (max_iterations : Nat) (gain : Int)
    (now : String) : Except PyError DebateResult :=
  match participants with
  | [] => .error (.indexError "list index out of range")
  | examinee :: examiners =>
    let initial_statement := generate_with_mode_tone gen
      ("State your position on: " ++ topic) examinee gain
    let messages0 : List DebateMessage :=
      [{ speaker := examinee.label, content := initial_statement, role := examinee.role
       , iteration := 0, timestamp := now }]
    let messages := many_on_one_loop gen topic examinee examiners gain now max_iterations 1 messages0
    let metrics := analyze_debate topic messages max_iterations
    let key_statements := extract_key_statements messages max_iterations
    .ok { topic := topic
        , format := DebateFormat.MANY_ON_ONE
        , participants := participants
        , messages := messages
        , metrics := metrics
        , keyStatements := key_statements
        , completed := true
        , convergenceReached := false }

-- ===== Panel discussion (facilitator.py 471-565) =====

/-- The inner `for panelist in panelists` loop of `_run_panel_discussion`
(facilitator.py 517-537). -/
def panel_statements (gen : GenOracle) (topic : String) (gain : Int) (now : String)
    (iter : Nat) : List ParticipantConfig → List DebateMessage → List DebateMessage
  | [], messages => messages
  | panelist :: rest, messages =>
    let statement_prompt := PANEL_DISCUSSION_PROMPT panelist.label panelist.role
      panelist.mode.value panelist.tone.value topic
      (match messages with | [] => "" | m :: _ => m.content)
      (build_context (pyTail 5 messages))
      "Share your perspective and respond to others\x27 points."
    let statement := generate_with_params gen statement_prompt panelist.model gain
    let messages1 := messages ++
      [{ speaker := panelist.label, content := statement, role := panelist.role
       , iteration := iter, timestamp := now }]
    panel_statements gen topic gain now iter rest messages1

/-- The `for iteration in range(1, max_iterations + 1)` loop of
`_run_panel_discussion` (facilitator.py 513-551). -/
def panel_loop (gen : GenOracle) (topic : String) (moderator : ParticipantConfig)
    (panelists : List ParticipantConfig) (has_user_moderator : Bool) (gain : Int)
    (now : String) : Nat → Nat → List DebateMessage → List DebateMessage
  | 0, _, messages => messages
  | fuel + 1, iter, messages =>
    let messages1 := panel_statements gen topic gain now iter panelists messages
    let messages2 :=
      if iter % 2 = 0 && !has_user_moderator then
        let moderation := generate_moderator_summary gen topic
          (pyTail panelists.length messages1) moderator gain
        messages1 ++
          [{ speaker := moderator.label, content := moderation, role := moderator.role
           , iteration := iter, timestamp := now }]
      else messages1
    panel_loop gen topic moderator panelists has_user_moderator gain now fuel (iter + 1) messages2

/-- `Facilitator._run_panel_discussion` (facilitator.py 471-565).  No
cardinality check: `participants[0]` raises `IndexError` on an empty list;
a lone moderator runs with zero panelists.  The only read of the loop
variable `iteration` is inside `not has_user_moderator or iteration >=
max_iterations` (line 563), whose `or` short-circuits: with a non-USER
moderator the variable is never read, so even `max_iterations = 0` returns
a result; only a USER moderator with `max_iterations = 0` reads the
never-assigned variable and raises `NameError`.  Whenever the loop ran
(`max_iterations >= 1`) it leaves `iteration = max_iterations` (the loop
has no `break`), which is how the second disjunct below is rendered; when
it is reached with `max_iterations = 0` the Python expression
short-circuited before it, and `0 >= 0` returns the same `True`. -/
def run_panel_discussion (gen : GenOracle) (topic : String)
    (participants : List ParticipantConfig) (max_iterations : Nat) (gain : Int)
    (now : String) : Except PyError DebateResult :=
  match participants with
  | [] => .error (.indexError "list index out of range")
  | moderator :: panelists =>
    let has_user_moderator := moderator.model = "USER"
    let messages0 : List DebateMessage :=
      if !has_user_moderator then
        let opening := generate_moderator_opening gen topic moderator gain
        [{ speaker := moderator.label, content := opening, role := moderator.role
         , iteration := 0, timestamp := now }]
      else
        [{ speaker := moderator.label, content := "[Awaiting moderator opening]", role := "user-pending"
         , iteration := 0, timestamp := now }]
    if max_iterations = 0 ∧ has_user_moderator then
      .error (.nameError "iteration")
    else
      let messages := panel_loop gen topic moderator panelists has_user_moderator gain now
        max_iterations 1 messages0
      let metrics := analyze_debate topic messages max_iterations
      let key_statements := extract_key_statements messages max_iterations
      .ok { topic := topic
          , format := DebateFormat.PANEL
          , participants := participants
          , messages := messages
          , metrics := metrics
          , keyStatements := key_statements
          , completed := !has_user_moderator || decide (max_iterations ≥ max_iterations)
          , convergenceReached := convergence_reached_of metrics }

-- ===== Round robin (facilitator.py 567-617) =====

/-- The inner `for participant in participants` loop of `_run_round_robin`
(facilitator.py 586-603); `total` is `len(participants)` of the full cast. -/
def round_robin_statements (gen : GenOracle) (topic : String) (gain : Int) (now : String)
    (iter total : Nat) : List ParticipantConfig → List DebateMessage → List DebateMessage
  | [], messages => messages
  | participant :: rest, messages =>
    let statement_prompt := ROUND_ROBIN_PROMPT participant.label
      participant.mode.value participant.tone.value topic
      (build_context (pyTail total messages))
    let statement := generate_with_params gen statement_prompt participant.model gain
    let messages1 := messages ++
      [{ speaker := participant.label, content := statement, role := participant.role
       , iteration := iter, timestamp := now }]
    round_robin_statements gen topic gain now iter total rest messages1

/-- The `for iteration in range(1, max_iterations + 1)` loop of
`_run_round_robin` (facilitator.py 582-603). -/
def round_robin_loop (gen : GenOracle) (topic : String)
    (participants : List ParticipantConfig) (gain : Int) (now : String) :
    Nat → Nat → List DebateMessage → List DebateMessage
  | 0, _, messages => messages
  | fuel + 1, iter, messages =>
    let messages1 := round_robin_statements gen topic gain now iter participants.length
      participants messages
    round_robin_loop gen topic participants gain now fuel (iter + 1) messages1

/-- `Facilitator._run_round_robin` (facilitator.py 567-617).  No
cardinality check of any kind: an empty participant list simply produces
an empty transcript. -/
def run_round_robin (gen : GenOracle) (topic : String)
    (participants : List ParticipantConfig) (max_iterations : Nat) (gain : Int)
    (now : String) : Except PyError DebateResult :=
  let messages := round_robin_loop gen topic participants gain now max_iterations 1 []
  let metrics := analyze_debate topic messages max_iterations
  let key_statements := extract_key_statements messages max_iterations
  .ok { topic := topic
      , format := DebateFormat.ROUND_ROBIN
      , participants := participants
      , messages := messages
      , metrics := metrics
      , keyStatements := key_statements
      , completed := true
      , convergenceReached := convergence_reached_of metrics }

-- ===== Orchestrator (facilitator.py 109-145) =====

/-- `Facilitator.run_debate`: pure dispatch on the format. -/
def run_debate (gen : GenOracle) (topic : String) (format : DebateFormat)
    (participants : List ParticipantConfig) (max_iterations : Nat) (gain : Int)
    (now : String) : Except PyError DebateResult :=
  match format with
  | .ONE_TO_ONE => run_one_to_one_debate gen topic participants max_iterations gain now
  | .CROSS_EXAM => run_cross_examination gen topic participants max_iterations gain now
  | .MANY_ON_ONE => run_many_on_one gen topic participants max_iterations gain now
  | .PANEL => run_panel_discussion gen topic participants max_iterations gain now
  | .ROUND_ROBIN => run_round_robin gen topic participants max_iterations gain now

-- ===== Delegated analysis endpoint (app/server.py 428-582) =====

/-- The metric fields parsed out of the JSON block that the analysis LLM
returned (`metrics_data` in `server.analyze_debate`); `none` models an
absent key, for which `dict.get` supplies the documented default. -/
structure MetricsData where
  agreementScore : Option ℚ
  convergenceStatus : Option String
  emotionalSensitivity : Option String
  biasLevel : Option String
  topicDrift : Option String
deriving DecidableEq

/-- Response of the `/api/analyze-debate` endpoint. -/
structure AnalyzeDebateResponse where
  metrics : DebateMetrics
  success : Bool
  error : Option String
deriving DecidableEq

/-- The `convergence_map.get(..., STABLE)` lookup (server.py 508-512, 531-534). -/
def convergence_map (s : String) : ConvergenceStatus :=
  if s = "CONVERGING" then .CONVERGING
  else if s = "DIVERGING" then .DIVERGING
  else if s = "STABLE" then .STABLE
  else .STABLE

/-- The `sensitivity_map.get(..., LOW)` lookup (server.py 514-518, 535-538, 543-546). -/
def sensitivity_map (s : String) : SensitivityLevel :=
  if s = "LOW" then .LOW
  else if s = "MEDIUM" then .MEDIUM
  else if s = "HIGH" then .HIGH
  else .LOW

/-- The `bias_map.get(..., NEUTRAL)` lookup (server.py 520-524, 539-542). -/
def bias_map (s : String) : BiasLevel :=
  if s = "LOW" then .LOW
  else if s = "NEUTRAL" then .NEUTRAL
  else if s = "HIGH" then .HIGH
  else .NEUTRAL

/-- The success path of `server.analyze_debate` from the parsed JSON block
onward (server.py 526-560): the metrics object is built directly from
`metrics_data` — in particular `agreementScore` is taken as
`float(metrics_data.get("agreementScore", 5.0))` with no range check, and
the response is returned with `success = True`. -/
def analyze_debate_endpoint_success (iteration : Int) (metrics_data : MetricsData) : AnalyzeDebateResponse :=
  let metrics : DebateMetrics :=
    { iteration := iteration
    , status := "In Progress"
    , agreementScore := some (metrics_data.agreementScore.getD 5.0)
    , convergenceStatus := some (convergence_map (metrics_data.convergenceStatus.getD "STABLE"))
    , emotionalSensitivity := some (sensitivity_map (metrics_data.emotionalSensitivity.getD "LOW"))
    , biasLevel := some (bias_map (metrics_data.biasLevel.getD "NEUTRAL"))
    , topicDrift := some (sensitivity_map (metrics_data.topicDrift.getD "LOW")) }
  { metrics := metrics, success := true, error := none }

/-- The exception path of `server.analyze_debate` (server.py 562-582):
baseline metrics with `success = False` and the error string surfaced. -/
def analyze_debate_endpoint_failure (iteration : Int) (err : String) : AnalyzeDebateResponse :=
  { metrics :=
    { iteration := iteration
    , status := "In Progress"
    , agreementScore := some 0.0
    , convergenceStatus := some .STABLE
    , emotionalSensitivity := some .LOW
    , biasLevel := some .NEUTRAL
    , topicDrift := some .LOW }
  , success := false
  , error := some err }

-- ===== Shared helper lemmas =====

/-- The heuristic agreement score, with the factors ordered as in the claim. -/
lemma analyze_debate_agreementScore (topic : String) (messages : List DebateMessage) (iteration : Nat) :
    (analyze_debate topic messages iteration).agreementScore
      = some (min (5 + 0.5 * (iteration : ℚ)) 10) := by
  show some (min (5.0 + ((iteration : ℚ) * 0.5)) 10.0) = _
  norm_num [mul_comm]

/-- The heuristic agreement score lies in `[5, 10]`. -/
lemma analyze_debate_score_bounds (iteration : Nat) :
    5 ≤ min (5 + 0.5 * (iteration : ℚ)) 10 ∧ min (5 + 0.5 * (iteration : ℚ)) 10 ≤ 10 := by
  constructor
  · refine le_min ?_ (by norm_num)
    have : (0 : ℚ) ≤ 0.5 * (iteration : ℚ) := by positivity
    linarith
  · exact min_le_right _ _

/-- On heuristic metrics the shared Python expression
`score >= threshold if score else False` is just the threshold test,
because the heuristic score is at least 5 and hence truthy. -/
lemma convergence_reached_of_analyze (topic : String) (messages : List DebateMessage) (iteration : Nat) :
    convergence_reached_of (analyze_debate topic messages iteration)
      = decide ((analyze_debate topic messages iteration).agreementScore.getD 0 ≥ CONVERGENCE_THRESHOLD) := by
  rw [convergence_reached_of, analyze_debate_agreementScore]
  have h5 := (analyze_debate_score_bounds iteration).1
  have hne : ¬ (min (5 + 0.5 * (iteration : ℚ)) 10 = 0) := by
    intro h0
    rw [h0] at h5
    norm_num at h5
  simp [hne]

-- ===== C8: heuristic metrics estimator =====

/-- C8 (confirmed): the heuristic estimator computes
`agreementScore = min(5 + 0.5 * roundIndex, 10)`, reports `CONVERGING`
exactly when the score exceeds 7 and `DIVERGING` otherwise, pins
sensitivity/bias/drift to their fixed defaults, and at `roundIndex = 6`
yields exactly `8` with status `CONVERGING`. -/
theorem heuristic_metrics_formula (topic : String) (messages : List DebateMessage) (iteration : Nat) :
    (analyze_debate topic messages iteration).agreementScore
        = some (min (5 + 0.5 * (iteration : ℚ)) 10)
    ∧ ((analyze_debate topic messages iteration).convergenceStatus = some ConvergenceStatus.CONVERGING
        ↔ 7 < min (5 + 0.5 * (iteration : ℚ)) 10)
    ∧ ((analyze_debate topic messages iteration).convergenceStatus = some ConvergenceStatus.DIVERGING
        ↔ ¬ 7 < min (5 + 0.5 * (iteration : ℚ)) 10)
    ∧ (analyze_debate topic messages iteration).emotionalSensitivity = some SensitivityLevel.MEDIUM
    ∧ (analyze_debate topic messages iteration).biasLevel = some BiasLevel.NEUTRAL
    ∧ (analyze_debate topic messages iteration).topicDrift = some SensitivityLevel.LOW
    ∧ (analyze_debate topic messages 6).agreementScore = some 8
    ∧ (analyze_debate topic messages 6).convergenceStatus = some ConvergenceStatus.CONVERGING := by
  have hmin : ∀ j : Nat, min (5.0 + ((j : ℚ) * 0.5)) 10.0 = min (5 + 0.5 * (j : ℚ)) 10 := by
    intro j
    norm_num [mul_comm]
  have hstat : ∀ j : Nat, (analyze_debate topic messages j).convergenceStatus
      = some (if min (5 + 0.5 * (j : ℚ)) 10 > 7 then ConvergenceStatus.CONVERGING else ConvergenceStatus.DIVERGING) := by
    intro j
    show some (if min (5.0 + ((j : ℚ) * 0.5)) 10.0 > 7 then _ else _) = _
    rw [hmin]
  have h6 : min (5 + 0.5 * ((6 : Nat) : ℚ)) 10 = 8 := by
    norm_num [min_def]
  refine ⟨analyze_debate_agreementScore topic messages iteration, ?_, ?_, rfl, rfl, rfl, ?_, ?_⟩
  · rw [hstat iteration]
    by_cases hc : min (5 + 0.5 * (iteration : ℚ)) 10 > 7
    · simp [hc]
    · simp [hc]
  · rw [hstat iteration]
    by_cases hc : min (5 + 0.5 * (iteration : ℚ)) 10 > 7
    · simp [hc]
    · simp [hc]
  · rw [analyze_debate_agreementScore, h6]
  · rw [hstat 6, h6]
    norm_num

-- ===== C9: generation failure handling =====

/-- C9 (confirmed): whenever the Ollama client call fails (connection
error, generation error, or timeout — all surfaced as `OllamaError`), the
turn generator returns the visible placeholder embedding `str(e)` instead
of propagating the exception, and (illustrated on cross-examination) a run
whose every generation call fails still returns a result. -/
theorem generation_failure_placeholder :
    (∀ (gen : GenOracle) (prompt model : String) (gain : Int) (e : OllamaError),
      gen prompt model (get_ollama_params gain) = .error e →
      generate_with_params gen prompt model gain
        = "[Error generating response: " ++ e.message ++ "]")
    ∧ (∀ (gen : GenOracle) (topic : String) (examiner examinee : ParticipantConfig)
        (max_iterations : Nat) (gain : Int) (now : String),
      ∃ r, run_cross_examination gen topic [examiner, examinee] max_iterations gain now
        = .ok r) := by
  constructor
  · intro gen prompt model gain e h
    rw [generate_with_params]
    rw [h]
  · intro gen topic examiner examinee max_iterations gain now
    exact ⟨_, rfl⟩

/-- A backend that always fails with a connection error. -/
def failingOracle : GenOracle :=
  fun _ _ _ => .error (.connectionError "Cannot connect to Ollama at http://localhost:11434")

/-- Witness for C9 at a concrete failing oracle. -/
theorem generation_failure_witness :
    failingOracle "prompt" "llama2" (get_ollama_params 5)
      = .error (.connectionError "Cannot connect to Ollama at http://localhost:11434")
    ∧ generate_with_params failingOracle "prompt" "llama2" 5
      = "[Error generating response: Cannot connect to Ollama at http://localhost:11434]" :=
  ⟨rfl, generation_failure_placeholder.1 failingOracle "prompt" "llama2" 5 _ rfl⟩

-- ===== C10: context window builder =====

/-- C10 (confirmed): the context builder yields the sentinel on an empty
list, otherwise renders every message as `speaker: content[:300]...`
joined by blank lines, and the `...` marker is appended unconditionally —
a message whose content is at most 300 characters still ends in `...`. -/
theorem build_context_spec :
    build_context [] = "(No previous context)"
    ∧ (∀ (m : DebateMessage) (ms : List DebateMessage),
        build_context (m :: ms) = String.intercalate "\n\n"
          ((m :: ms).map (fun msg => msg.speaker ++ ": " ++ msg.content.take 300 ++ "...")))
    ∧ (∀ m : DebateMessage, m.content.length ≤ 300 →
        build_context [m] = m.speaker ++ ": " ++ m.content ++ "...") := by
  refine ⟨rfl, fun m ms => rfl, fun m hm => ?_⟩
  have htake : m.content.take 300 = m.content := by
    apply String.ext
    rw [String.data_take]
    exact List.take_of_length_le hm
  show String.intercalate "\n\n" [m.speaker ++ ": " ++ m.content.take 300 ++ "..."] = _
  rw [htake]
  rfl

/-- Witness for C10: a concrete short message still gets the `...` marker. -/
theorem build_context_witness :
    (("A short statement." : String).length ≤ 300)
    ∧ build_context [{ speaker := "Debater 1", content := "A short statement.", role := "debater1"
                     , iteration := 1, timestamp := "ts" }]
      = "Debater 1" ++ ": " ++ "A short statement." ++ "..." :=
  ⟨by decide, build_context_spec.2.2 _ (by decide)⟩

-- ===== C5: agreementScore range handling =====

/-- C5 counterexample: the delegated analysis endpoint, handed an
`agreementScore` of 15 (outside `[0, 10]`) by the external analysis
source, returns it unchanged with `success = True` — it is neither
rejected as a malformed result nor clamped. -/
theorem out_of_range_score_accepted :
    (analyze_debate_endpoint_success 1
        { agreementScore := some 15, convergenceStatus := none
        , emotionalSensitivity := none, biasLevel := none, topicDrift := none }).success = true
    ∧ (analyze_debate_endpoint_success 1
        { agreementScore := some 15, convergenceStatus := none
        , emotionalSensitivity := none, biasLevel := none, topicDrift := none }).metrics.agreementScore
      = some 15
    ∧ ¬ ((15 : ℚ) ≤ 10) :=
  ⟨rfl, rfl, by norm_num⟩

/-- C5 (corrected): the heuristic estimator always produces an
`agreementScore` inside `[0, 10]`, but the delegated analysis endpoint
performs no range validation — whatever numeric score the external source
reports is passed through as-is with `success = True`; only the exception
path (parse failure) reports `success = False`, with a baseline score
of 0. -/
theorem agreement_score_range_amended :
    (∀ (topic : String) (messages : List DebateMessage) (iteration : Nat),
      ∃ s, (analyze_debate topic messages iteration).agreementScore = some s
        ∧ 0 ≤ s ∧ s ≤ 10)
    ∧ (∀ (iteration : Int) (d : MetricsData) (v : ℚ),
        d.agreementScore = some v →
        (analyze_debate_endpoint_success iteration d).success = true
        ∧ (analyze_debate_endpoint_success iteration d).metrics.agreementScore = some v)
    ∧ (∀ (iteration : Int) (err : String),
        (analyze_debate_endpoint_failure iteration err).success = false
        ∧ (analyze_debate_endpoint_failure iteration err).metrics.agreementScore = some 0) := by
  refine ⟨fun topic messages iteration => ?_, fun iteration d v hv => ?_, fun iteration err => ?_⟩
  · refine ⟨min (5 + 0.5 * (iteration : ℚ)) 10, analyze_debate_agreementScore topic messages iteration, ?_, (analyze_debate_score_bounds iteration).2⟩
    have h5 := (analyze_debate_score_bounds iteration).1
    linarith
  · constructor
    · rfl
    · show some (d.agreementScore.getD 5.0) = some v
      rw [hv]
      rfl
  · exact ⟨rfl, by norm_num [analyze_debate_endpoint_failure]⟩

/-- Witness for C5 at a concrete parsed analysis result. -/
theorem agreement_score_range_witness :
    (MetricsData.agreementScore
        { agreementScore := some 15, convergenceStatus := some "CONVERGING"
        , emotionalSensitivity := none, biasLevel := none, topicDrift := none } = some 15)
    ∧ ((analyze_debate_endpoint_success 2
          { agreementScore := some 15, convergenceStatus := some "CONVERGING"
          , emotionalSensitivity := none, biasLevel := none, topicDrift := none }).success = true
       ∧ (analyze_debate_endpoint_success 2
          { agreementScore := some 15, convergenceStatus := some "CONVERGING"
          , emotionalSensitivity := none, biasLevel := none, topicDrift := none }).metrics.agreementScore
         = some 15) :=
  ⟨rfl, agreement_score_range_amended.2.1 2 _ 15 rfl⟩

-- ===== C3: key-statement extraction =====

/-- The head segment of the Python-style split is the longest prefix free
of the separator. -/
lemma pySplitChar_head (sep : Char) (l : List Char) :
    ∃ segs, pySplitChar sep l = l.takeWhile (fun c => c != sep) :: segs := by
  induction l with
  | nil => exact ⟨[], rfl⟩
  | cons c cs ih =>
    obtain ⟨segs, hsegs⟩ := ih
    by_cases hc : c = sep
    · subst hc
      refine ⟨cs.takeWhile (fun x => x != c) :: segs, ?_⟩
      rw [pySplitChar, hsegs]
      simp [List.takeWhile_cons]
    · refine ⟨segs, ?_⟩
      rw [pySplitChar, hsegs]
      simp [List.takeWhile_cons, hc]

/-- First `split('.')` segment of a string, as the separator-free prefix. -/
lemma pySplit_head (s : String) :
    (pySplit '.' s).headD "" = String.mk (s.data.takeWhile (fun c => c != '.')) := by
  obtain ⟨segs, hsegs⟩ := pySplitChar_head '.' s.data
  rw [pySplit, hsegs]
  rfl

/-- C3 counterexample: the spec example content
`"AI is powerful. It changes everything."` yields zero key statements,
not one — its first sentence `"AI is powerful."` is 15 characters, which
the extractor discards (it keeps only results strictly longer than 20). -/
theorem key_statement_example_counterexample :
    extract_key_statements
      [{ speaker := "Debater 1", content := "AI is powerful. It changes everything."
       , role := "debater1", iteration := 2, timestamp := "ts" }] 2 = []
    ∧ ("AI is powerful." : String).length = 15 := by
  constructor
  · rfl
  · rfl

/-- Per-element decomposition of `filterMap`. -/
lemma filterMap_eq_flatMap_singleton {α β : Type} (f : α → Option β) (l : List α) :
    l.filterMap f = l.flatMap (fun a => [a].filterMap f) := by
  induction l with
  | nil => rfl
  | cons a as ih =>
    rw [List.filterMap_cons, List.flatMap_cons, ← ih]
    cases h : f a <;> simp [List.filterMap_cons, h]

/-- C3 (corrected): extraction takes the first `split('.')` segment of the
content with a period appended, keeps it only when strictly longer than 20
characters (so results of 20 characters or fewer — including the spec's
15-character example `"AI is powerful."` — yield nothing), truncates kept
results to 100 characters, and processes entries independently in order. -/
theorem key_statement_extraction_amended :
    (∀ (msg : DebateMessage) (iteration : Nat),
      (((String.mk (msg.content.data.takeWhile (fun c => c != '.'))) ++ ".").length ≤ 20 →
        extract_key_statements [msg] iteration = [])
      ∧ (20 < ((String.mk (msg.content.data.takeWhile (fun c => c != '.'))) ++ ".").length →
        extract_key_statements [msg] iteration
          = [{ speaker := msg.speaker
             , text := ((String.mk (msg.content.data.takeWhile (fun c => c != '.'))) ++ ".").take 100
             , iteration := iteration }]))
    ∧ (∀ (msgs : List DebateMessage) (iteration : Nat),
        extract_key_statements msgs iteration
          = msgs.flatMap (fun msg => extract_key_statements [msg] iteration)) := by
  constructor
  · intro msg iteration
    have hfs : ((pySplit '.' msg.content).headD "") ++ "."
        = (String.mk (msg.content.data.takeWhile (fun c => c != '.'))) ++ "." := by
      rw [pySplit_head]
    constructor
    · intro hle
      rw [extract_key_statements]
      simp only [List.filterMap]
      rw [hfs]
      rw [if_neg (by omega)]
    · intro hgt
      rw [extract_key_statements]
      simp only [List.filterMap]
      rw [hfs]
      rw [if_pos hgt]
  · intro msgs iteration
    exact filterMap_eq_flatMap_singleton _ msgs

/-- Witness for C3 at concrete contents: a long first sentence is kept. -/
theorem key_statement_extraction_witness :
    (20 < ((String.mk (("Artificial intelligence transforms every industry today. Deal with it." : String).data.takeWhile (fun c => c != '.'))) ++ ".").length)
    ∧ extract_key_statements
        [{ speaker := "Debater 2", content := "Artificial intelligence transforms every industry today. Deal with it."
         , role := "debater2", iteration := 3, timestamp := "ts" }] 3
      = [{ speaker := "Debater 2"
         , text := ((String.mk (("Artificial intelligence transforms every industry today. Deal with it." : String).data.takeWhile (fun c => c != '.'))) ++ ".").take 100
         , iteration := 3 }] :=
  ⟨by decide, (key_statement_extraction_amended.1 _ 3).2 (by decide)⟩

-- ===== Concrete fixtures for counterexamples and witnesses =====

/-- A backend that always succeeds with a fixed response. -/
def constOracle : GenOracle :=
  fun _ _ _ => .ok "Generated response with a meaningful first sentence. And more."

/-- An examiner configuration. -/
def examinerP : ParticipantConfig :=
  { role := "examiner", label := "Examiner", model := "llama2"
  , mode := DistortionMode.SO_WHAT_ER, tone := DistortionTone.NEUTRAL }

/-- An examinee configuration. -/
def examineeP : ParticipantConfig :=
  { role := "examinee", label := "Examinee", model := "mistral"
  , mode := DistortionMode.CUCUMB_ER, tone := DistortionTone.TECHNICAL }

/-- A participant driven by external human input. -/
def userParticipant : ParticipantConfig :=
  { role := "debater1", label := "You", model := "USER"
  , mode := DistortionMode.ECHO_ER, tone := DistortionTone.NEUTRAL }

/-- A model-driven debater. -/
def botParticipant : ParticipantConfig :=
  { role := "debater2", label := "Bot", model := "llama2"
  , mode := DistortionMode.INVERT_ER, tone := DistortionTone.TECHNICAL }

-- ===== C1: per-format cardinality validation =====

/-- C1 counterexample: a round-robin run with zero participants does not
fail with an invalid-configuration error — it runs to completion and
returns an empty transcript. -/
theorem round_robin_empty_participants_runs :
    (run_debate constOracle "topic" DebateFormat.ROUND_ROBIN [] 1 5 "ts").toOption.map
      (fun r => (r.messages, r.completed)) = some ([], true) := rfl

/-- C1 (corrected): only the one-to-one and cross-examination handlers
validate cardinality (exactly 2, raising `ValueError` for any `gen`, i.e.
before any generation call); many-on-one and panel run with a single
participant, round robin runs with zero participants, and an empty
participant list reaches many-on-one and panel only as an `IndexError`
from `participants[0]`, not as a configuration error. -/
theorem cardinality_validation_amended :
    (∀ (gen : GenOracle) (topic : String) (participants : List ParticipantConfig)
        (max_iterations : Nat) (gain : Int) (now : String),
      participants.length ≠ 2 →
      run_one_to_one_debate gen topic participants max_iterations gain now
        = .error (.valueError "One-to-one debate requires exactly 2 participants"))
    ∧ (∀ (gen : GenOracle) (topic : String) (participants : List ParticipantConfig)
        (max_iterations : Nat) (gain : Int) (now : String),
      participants.length ≠ 2 →
      run_cross_examination gen topic participants max_iterations gain now
        = .error (.valueError "Cross-examination requires exactly 2 participants (examiner and examinee)"))
    ∧ (∀ (gen : GenOracle) (topic : String) (p : ParticipantConfig)
        (max_iterations : Nat) (gain : Int) (now : String),
      ∃ r, run_many_on_one gen topic [p] max_iterations gain now = .ok r)
    ∧ (∀ (gen : GenOracle) (topic : String) (p : ParticipantConfig)
        (max_iterations : Nat) (gain : Int) (now : String),
      ∃ r, run_panel_discussion gen topic [p] (max_iterations + 1) gain now = .ok r)
    ∧ (∀ (gen : GenOracle) (topic : String) (max_iterations : Nat) (gain : Int) (now : String),
      ∃ r, run_round_robin gen topic [] max_iterations gain now = .ok r)
    ∧ (∀ (gen : GenOracle) (topic : String) (max_iterations : Nat) (gain : Int) (now : String),
      run_many_on_one gen topic [] max_iterations gain now
        = .error (.indexError "list index out of range")) := by
  refine ⟨?_, ?_, ?_, ?_, ?_, ?_⟩
  · intro gen topic participants max_iterations gain now h
    match participants with
    | [] => rfl
    | [_] => rfl
    | [_, _] => simp at h
    | _ :: _ :: _ :: _ => rfl
  · intro gen topic participants max_iterations gain now h
    match participants with
    | [] => rfl
    | [_] => rfl
    | [_, _] => simp at h
    | _ :: _ :: _ :: _ => rfl
  · intro gen topic p max_iterations gain now
    exact ⟨_, rfl⟩
  · intro gen topic p max_iterations gain now
    exact ⟨_, rfl⟩
  · intro gen topic max_iterations gain now
    exact ⟨_, rfl⟩
  · intro gen topic max_iterations gain now
    rfl

/-- Witness for C1: the one-to-one validation fires on an empty list. -/
theorem cardinality_validation_witness :
    (([] : List ParticipantConfig).length ≠ 2)
    ∧ run_one_to_one_debate constOracle "topic" [] 4 5 "ts"
      = .error (.valueError "One-to-one debate requires exactly 2 participants") :=
  ⟨by decide, cardinality_validation_amended.1 constOracle "topic" [] 4 5 "ts" (by decide)⟩

-- ===== C2: one-to-one external-input suspension =====

/-- C2 counterexample: a one-to-one debate with a `USER` participant and
`maxRounds = 1` still halts after the single placeholder entry, but
returns `completed = true`, not `false` — `completed` is not `false`
regardless of `maxRounds`. -/
theorem user_suspension_maxrounds_one :
    (run_debate constOracle "topic" DebateFormat.ONE_TO_ONE [userParticipant, botParticipant] 1 5 "ts").toOption.map
      (fun r => (r.completed, r.messages))
    = some (true,
        [{ speaker := "You", content := "[Awaiting user input]", role := "user-pending"
         , iteration := 1, timestamp := "ts" }]) := rfl

/-- Unfolding of the one-to-one handler for a positive iteration budget. -/
lemma run_one_to_one_succ (gen : GenOracle) (topic : String) (d1 d2 : ParticipantConfig)
    (m : Nat) (gain : Int) (now : String) :
    run_one_to_one_debate gen topic [d1, d2] (m + 1) gain now
      = (let result := one_to_one_loop gen topic d1 d2 gain now (m + 1) 1
           { messages := [], key_statements := [], previous_context := "", opponent_statement := "" }
         let metrics := analyze_debate topic result.1.messages result.2
         Except.ok
           { topic := topic, format := DebateFormat.ONE_TO_ONE, participants := [d1, d2]
           , messages := result.1.messages, metrics := metrics
           , keyStatements := result.1.key_statements
           , completed := !(decide (d1.model = "USER" ∨ d2.model = "USER")) || decide (result.2 ≥ m + 1)
           , convergenceReached := convergence_reached_of metrics }) := rfl

/-- C2 (corrected): with at least one `USER` participant the run halts in
round 1 with exactly one placeholder entry as the final transcript entry;
`completed` is `false` for every `maxRounds >= 2`, while `maxRounds = 1`
yields `completed = true` (the `iteration >= max_iterations` disjunct). -/
theorem user_suspension_amended (gen : GenOracle) (topic : String)
    (debater1 debater2 : ParticipantConfig) (max_iterations : Nat) (gain : Int) (now : String)
    (hmax : 2 ≤ max_iterations) (huser : debater1.model = "USER" ∨ debater2.model = "USER") :
    ∃ r, run_one_to_one_debate gen topic [debater1, debater2] max_iterations gain now = .ok r
      ∧ r.completed = false
      ∧ ((debater1.model = "USER"
            ∧ r.messages = [{ speaker := debater1.label, content := "[Awaiting user input]"
                            , role := "user-pending", iteration := 1, timestamp := now }])
         ∨ (debater1.model ≠ "USER"
            ∧ ∃ c, r.messages = [{ speaker := debater1.label, content := c, role := debater1.role
                                 , iteration := 1, timestamp := now },
                                 { speaker := debater2.label, content := "[Awaiting user input]"
                                 , role := "user-pending", iteration := 1, timestamp := now }])) := by
  obtain ⟨k, rfl⟩ : ∃ k, max_iterations = k + 1 + 1 := ⟨max_iterations - 2, by omega⟩
  have hrun := run_one_to_one_succ gen topic debater1 debater2 (k + 1) gain now
  have hdec : decide (debater1.model = "USER" ∨ debater2.model = "USER") = true :=
    decide_eq_true huser
  have hiter : decide (1 ≥ k + 1 + 1) = false := decide_eq_false (by omega)
  by_cases h1 : debater1.model = "USER"
  · have hloop : one_to_one_loop gen topic debater1 debater2 gain now (k + 1 + 1) 1
        { messages := [], key_statements := [], previous_context := "", opponent_statement := "" }
        = ({ messages := [{ speaker := debater1.label, content := "[Awaiting user input]"
                          , role := "user-pending", iteration := 1, timestamp := now }]
           , key_statements := [], previous_context := "", opponent_statement := "" }, 1) := by
      rw [one_to_one_loop, if_neg (by simp [h1])]
      rfl
    rw [hrun, hloop] at *
    refine ⟨_, rfl, ?_, Or.inl ⟨h1, rfl⟩⟩
    simp only [hdec, hiter, Bool.not_true, Bool.or_false]
  · have h2 : debater2.model = "USER" := huser.resolve_left h1
    have hloop : one_to_one_loop gen topic debater1 debater2 gain now (k + 1 + 1) 1
        { messages := [], key_statements := [], previous_context := "", opponent_statement := "" }
        = ({ messages :=
              [{ speaker := debater1.label
               , content := generate_one_to_one_response gen debater1 topic debater2 "" "" gain
               , role := debater1.role, iteration := 1, timestamp := now },
               { speaker := debater2.label, content := "[Awaiting user input]"
               , role := "user-pending", iteration := 1, timestamp := now }]
           , key_statements := []
           , previous_context := build_context (pyTail 3
               [{ speaker := debater1.label
                , content := generate_one_to_one_response gen debater1 topic debater2 "" "" gain
                , role := debater1.role, iteration := 1, timestamp := now }])
           , opponent_statement := generate_one_to_one_response gen debater1 topic debater2 "" "" gain }, 1) := by
      rw [one_to_one_loop, if_pos (by simp [h1])]
      simp only
      rw [if_neg (by simp [h2])]
      rfl
    rw [hrun, hloop] at *
    refine ⟨_, rfl, ?_, Or.inr ⟨h1, ⟨generate_one_to_one_response gen debater1 topic debater2 "" "" gain, rfl⟩⟩⟩
    simp only [hdec, hiter, Bool.not_true, Bool.or_false]

/-- Witness for C2 with two rounds allowed and an external-input first
debater. -/
theorem user_suspension_witness :
    2 ≤ 2 ∧ userParticipant.model = "USER"
    ∧ (∃ r, run_one_to_one_debate constOracle "topic" [userParticipant, botParticipant] 2 5 "ts" = .ok r
        ∧ r.completed = false
        ∧ ((userParticipant.model = "USER"
              ∧ r.messages = [{ speaker := userParticipant.label, content := "[Awaiting user input]"
                              , role := "user-pending", iteration := 1, timestamp := "ts" }])
           ∨ (userParticipant.model ≠ "USER"
              ∧ ∃ c, r.messages = [{ speaker := userParticipant.label, content := c, role := userParticipant.role
                                   , iteration := 1, timestamp := "ts" },
                                   { speaker := botParticipant.label, content := "[Awaiting user input]"
                                   , role := "user-pending", iteration := 1, timestamp := "ts" }]))) :=
  ⟨le_refl 2, rfl,
    user_suspension_amended constOracle "topic" userParticipant botParticipant 2 5 "ts"
      (le_refl 2) (Or.inl rfl)⟩

-- ===== C4: convergence flag semantics =====

/-- C4 counterexample: a completed cross-examination with `maxRounds = 6`
ends with `agreementScore = 8`, which meets the threshold, yet
`convergenceReached` is `false` — the flag is hard-coded off for
cross-examination (and likewise many-on-one). -/
theorem cross_exam_convergence_counterexample :
    (run_debate constOracle "topic" DebateFormat.CROSS_EXAM [examinerP, examineeP] 6 5 "ts").toOption.map
      (fun r => (r.metrics.agreementScore, r.convergenceReached, r.completed))
    = some (some 8, false, true) := by
  have h : (run_debate constOracle "topic" DebateFormat.CROSS_EXAM [examinerP, examineeP] 6 5 "ts").toOption.map
      (fun r => (r.metrics.agreementScore, r.convergenceReached, r.completed))
    = some (some (min (5.0 + (((6 : Nat) : ℚ)) * 0.5) 10.0), false, true) := rfl
  rw [h]
  norm_num [min_def]

/-- C4 (corrected): `convergenceReached` is the threshold test
`agreementScore >= 8` only for the one-to-one, panel and round-robin
handlers; the cross-examination and many-on-one handlers always return
`convergenceReached = false`, whatever the final score. -/
theorem convergence_flag_amended :
    (∀ (gen : GenOracle) (topic : String) (participants : List ParticipantConfig)
        (max_iterations : Nat) (gain : Int) (now : String),
      resultOk (fun r => r.convergenceReached = false)
        (run_cross_examination gen topic participants max_iterations gain now))
    ∧ (∀ (gen : GenOracle) (topic : String) (participants : List ParticipantConfig)
        (max_iterations : Nat) (gain : Int) (now : String),
      resultOk (fun r => r.convergenceReached = false)
        (run_many_on_one gen topic participants max_iterations gain now))
    ∧ (∀ (gen : GenOracle) (topic : String) (participants : List ParticipantConfig)
        (max_iterations : Nat) (gain : Int) (now : String),
      resultOk (fun r => r.convergenceReached
          = decide (r.metrics.agreementScore.getD 0 ≥ CONVERGENCE_THRESHOLD))
        (run_one_to_one_debate gen topic participants max_iterations gain now))
    ∧ (∀ (gen : GenOracle) (topic : String) (participants : List ParticipantConfig)
        (max_iterations : Nat) (gain : Int) (now : String),
      resultOk (fun r => r.convergenceReached
          = decide (r.metrics.agreementScore.getD 0 ≥ CONVERGENCE_THRESHOLD))
        (run_panel_discussion gen topic participants max_iterations gain now))
    ∧ (∀ (gen : GenOracle) (topic : String) (participants : List ParticipantConfig)
        (max_iterations : Nat) (gain : Int) (now : String),
      resultOk (fun r => r.convergenceReached
          = decide (r.metrics.agreementScore.getD 0 ≥ CONVERGENCE_THRESHOLD))
        (run_round_robin gen topic participants max_iterations gain now)) := by
  refine ⟨?_, ?_, ?_, ?_, ?_⟩
  · intro gen topic participants max_iterations gain now
    match participants with
    | [] => trivial
    | [_] => trivial
    | [_, _] => exact rfl
    | _ :: _ :: _ :: _ => trivial
  · intro gen topic participants max_iterations gain now
    match participants with
    | [] => trivial
    | _ :: _ => exact rfl
  · intro gen topic participants max_iterations gain now
    match participants with
    | [] => trivial
    | [_] => trivial
    | [d1, d2] =>
      match max_iterations with
      | 0 => trivial
      | m + 1 =>
        exact convergence_reached_of_analyze topic
          (one_to_one_loop gen topic d1 d2 gain now (m + 1) 1
            { messages := [], key_statements := [], previous_context := "", opponent_statement := "" }).1.messages
          (one_to_one_loop gen topic d1 d2 gain now (m + 1) 1
            { messages := [], key_statements := [], previous_context := "", opponent_statement := "" }).2
    | _ :: _ :: _ :: _ => trivial
  · intro gen topic participants max_iterations gain now
    match participants with
    | [] => trivial
    | moderator :: panelists =>
      simp only [run_panel_discussion]
      split_ifs <;>
        first
          | trivial
          | (simp only [resultOk]
             exact convergence_reached_of_analyze topic _ max_iterations)
  · intro gen topic participants max_iterations gain now
    exact convergence_reached_of_analyze topic
      (round_robin_loop gen topic participants gain now max_iterations 1 []) max_iterations

-- ===== C6: cross-examination transcript shape =====

/-- C6 (confirmed): a cross-examination with two participants and
`maxRounds = 3` always completes and returns exactly 7 transcript entries:
the examinee's opening at round 0, then examiner/examinee alternating with
round indices 1, 1, 2, 2, 3, 3. -/
theorem cross_exam_three_rounds_shape (gen : GenOracle) (topic : String)
    (examiner examinee : ParticipantConfig) (gain : Int) (now : String) :
    ∃ r c0 c1 c2 c3 c4 c5 c6,
      run_cross_examination gen topic [examiner, examinee] 3 gain now = .ok r
      ∧ r.messages =
        [{ speaker := examinee.label, content := c0, role := examinee.role, iteration := 0, timestamp := now },
         { speaker := examiner.label, content := c1, role := examiner.role, iteration := 1, timestamp := now },
         { speaker := examinee.label, content := c2, role := examinee.role, iteration := 1, timestamp := now },
         { speaker := examiner.label, content := c3, role := examiner.role, iteration := 2, timestamp := now },
         { speaker := examinee.label, content := c4, role := examinee.role, iteration := 2, timestamp := now },
         { speaker := examiner.label, content := c5, role := examiner.role, iteration := 3, timestamp := now },
         { speaker := examinee.label, content := c6, role := examinee.role, iteration := 3, timestamp := now }]
      ∧ r.messages.length = 7
      ∧ r.completed = true :=
  ⟨_, _, _, _, _, _, _, _, rfl, rfl, rfl, rfl⟩

-- ===== C7: round indices are non-decreasing =====

/-- The round indices along a transcript never decrease. -/
def messagesMonotone (l : List DebateMessage) : Prop :=
  l.Pairwise (fun a b => a.iteration ≤ b.iteration)

/-- Appending one message whose round index dominates a bound on the list
preserves monotonicity. -/
lemma monotone_append_one {l : List DebateMessage} {m : DebateMessage} {k : Nat}
    (hl : messagesMonotone l) (hb : ∀ a ∈ l, a.iteration ≤ k) (hk : k ≤ m.iteration) :
    messagesMonotone (l ++ [m]) := by
  rw [messagesMonotone, List.pairwise_append]
  refine ⟨hl, List.pairwise_singleton _ _, ?_⟩
  intro a ha b hb'
  rcases List.mem_singleton.mp hb' with rfl
  exact le_trans (hb a ha) hk

/-- Appending one bounded message preserves the bound. -/
lemma bound_append_one {l : List DebateMessage} {m : DebateMessage} {k : Nat}
    (hb : ∀ a ∈ l, a.iteration ≤ k) (hm : m.iteration ≤ k) :
    ∀ a ∈ l ++ [m], a.iteration ≤ k := by
  intro a ha
  rcases List.mem_append.mp ha with h | h
  · exact hb a h
  · rcases List.mem_singleton.mp h with rfl
    exact hm

/-- A round-index bound is upward closed. -/
lemma bound_mono {l : List DebateMessage} {k j : Nat}
    (hb : ∀ a ∈ l, a.iteration ≤ k) (hkj : k ≤ j) :
    ∀ a ∈ l, a.iteration ≤ j :=
  fun a ha => le_trans (hb a ha) hkj

/-- The many-on-one question round preserves monotonicity and the current
round bound: every appended question carries the current round index. -/
lemma many_on_one_questions_inv (gen : GenOracle) (topic : String) (gain : Int) (now : String)
    (iter : Nat) (ps : List ParticipantConfig) :
    ∀ messages, messagesMonotone messages → (∀ a ∈ messages, a.iteration ≤ iter) →
      messagesMonotone (many_on_one_questions gen topic gain now iter ps messages)
      ∧ ∀ a ∈ many_on_one_questions gen topic gain now iter ps messages, a.iteration ≤ iter := by
  induction ps with
  | nil => exact fun messages hm hb => ⟨hm, hb⟩
  | cons p rest ih =>
    intro messages hm hb
    rw [many_on_one_questions]
    exact ih _ (monotone_append_one hm hb (le_refl iter)) (bound_append_one hb (le_refl iter))

/-- The panel statement round preserves monotonicity and the round bound. -/
lemma panel_statements_inv (gen : GenOracle) (topic : String) (gain : Int) (now : String)
    (iter : Nat) (ps : List ParticipantConfig) :
    ∀ messages, messagesMonotone messages → (∀ a ∈ messages, a.iteration ≤ iter) →
      messagesMonotone (panel_statements gen topic gain now iter ps messages)
      ∧ ∀ a ∈ panel_statements gen topic gain now iter ps messages, a.iteration ≤ iter := by
  induction ps with
  | nil => exact fun messages hm hb => ⟨hm, hb⟩
  | cons p rest ih =>
    intro messages hm hb
    rw [panel_statements.eq_def]
    simp only
    exact ih _ (monotone_append_one hm hb (le_refl iter)) (bound_append_one hb (le_refl iter))

/-- The round-robin statement round preserves monotonicity and the bound. -/
lemma round_robin_statements_inv (gen : GenOracle) (topic : String) (gain : Int) (now : String)
    (iter total : Nat) (ps : List ParticipantConfig) :
    ∀ messages, messagesMonotone messages → (∀ a ∈ messages, a.iteration ≤ iter) →
      messagesMonotone (round_robin_statements gen topic gain now iter total ps messages)
      ∧ ∀ a ∈ round_robin_statements gen topic gain now iter total ps messages, a.iteration ≤ iter := by
  induction ps with
  | nil => exact fun messages hm hb => ⟨hm, hb⟩
  | cons p rest ih =>
    intro messages hm hb
    rw [round_robin_statements]
    exact ih _ (monotone_append_one hm hb (le_refl iter)) (bound_append_one hb (le_refl iter))

/-- The one-to-one loop preserves monotonicity of the transcript. -/
lemma one_to_one_loop_mono (gen : GenOracle) (topic : String) (d1 d2 : ParticipantConfig)
    (gain : Int) (now : String) :
    ∀ (fuel iter : Nat) (st : OneToOneState), messagesMonotone st.messages →
      (∀ a ∈ st.messages, a.iteration ≤ iter) →
      messagesMonotone (one_to_one_loop gen topic d1 d2 gain now fuel iter st).1.messages := by
  intro fuel
  induction fuel with
  | zero => exact fun iter st hm _ => hm
  | succ n ih =>
    intro iter st hm hb
    rw [one_to_one_loop]
    by_cases h1 : d1.model ≠ "USER"
    · rw [if_pos h1]
      by_cases h2 : d2.model ≠ "USER"
      · rw [if_pos h2]
        refine ih (iter + 1) _ ?_ ?_
        · exact monotone_append_one
            (monotone_append_one hm hb (le_refl iter))
            (bound_append_one hb (le_refl iter)) (le_refl iter)
        · exact bound_mono
            (bound_append_one (bound_append_one hb (le_refl iter)) (le_refl iter))
            (Nat.le_succ iter)
      · rw [if_neg h2]
        exact monotone_append_one
          (monotone_append_one hm hb (le_refl iter))
          (bound_append_one hb (le_refl iter)) (le_refl iter)
    · rw [if_neg h1]
      exact monotone_append_one hm hb (le_refl iter)

/-- The cross-examination loop preserves monotonicity. -/
lemma cross_exam_loop_mono (gen : GenOracle) (topic : String)
    (examiner examinee : ParticipantConfig) (gain : Int) (now : String) :
    ∀ (fuel iter : Nat) (messages : List DebateMessage), messagesMonotone messages →
      (∀ a ∈ messages, a.iteration ≤ iter) →
      messagesMonotone (cross_exam_loop gen topic examiner examinee gain now fuel iter messages) := by
  intro fuel
  induction fuel with
  | zero => exact fun iter messages hm _ => hm
  | succ n ih =>
    intro iter messages hm hb
    rw [cross_exam_loop]
    refine ih (iter + 1) _ ?_ ?_
    · exact monotone_append_one
        (monotone_append_one hm hb (le_refl iter))
        (bound_append_one hb (le_refl iter)) (le_refl iter)
    · exact bound_mono
        (bound_append_one (bound_append_one hb (le_refl iter)) (le_refl iter))
        (Nat.le_succ iter)

/-- The many-on-one loop preserves monotonicity. -/
lemma many_on_one_loop_mono (gen : GenOracle) (topic : String)
    (examinee : ParticipantConfig) (examiners : List ParticipantConfig) (gain : Int) (now : String) :
    ∀ (fuel iter : Nat) (messages : List DebateMessage), messagesMonotone messages →
      (∀ a ∈ messages, a.iteration ≤ iter) →
      messagesMonotone (many_on_one_loop gen topic examinee examiners gain now fuel iter messages) := by
  intro fuel
  induction fuel with
  | zero => exact fun iter messages hm _ => hm
  | succ n ih =>
    intro iter messages hm hb
    rw [many_on_one_loop]
    obtain ⟨hm1, hb1⟩ := many_on_one_questions_inv gen topic gain now iter examiners messages hm hb
    refine ih (iter + 1) _ ?_ ?_
    · exact monotone_append_one hm1 hb1 (le_refl iter)
    · exact bound_mono (bound_append_one hb1 (le_refl iter)) (Nat.le_succ iter)

/-- The panel loop preserves monotonicity (the optional moderator summary
carries the current round index as well). -/
lemma panel_loop_mono (gen : GenOracle) (topic : String) (moderator : ParticipantConfig)
    (panelists : List ParticipantConfig) (hu : Bool) (gain : Int) (now : String) :
    ∀ (fuel iter : Nat) (messages : List DebateMessage), messagesMonotone messages →
      (∀ a ∈ messages, a.iteration ≤ iter) →
      messagesMonotone (panel_loop gen topic moderator panelists hu gain now fuel iter messages) := by
  intro fuel
  induction fuel with
  | zero => exact fun iter messages hm _ => hm
  | succ n ih =>
    intro iter messages hm hb
    rw [panel_loop]
    obtain ⟨hm1, hb1⟩ := panel_statements_inv gen topic gain now iter panelists messages hm hb
    split_ifs with hc
    · refine ih (iter + 1) _ ?_ ?_
      · exact monotone_append_one hm1 hb1 (le_refl iter)
      · exact bound_mono (bound_append_one hb1 (le_refl iter)) (Nat.le_succ iter)
    · exact ih (iter + 1) _ hm1 (bound_mono hb1 (Nat.le_succ iter))

/-- The round-robin loop preserves monotonicity. -/
lemma round_robin_loop_mono (gen : GenOracle) (topic : String)
    (participants : List ParticipantConfig) (gain : Int) (now : String) :
    ∀ (fuel iter : Nat) (messages : List DebateMessage), messagesMonotone messages →
      (∀ a ∈ messages, a.iteration ≤ iter) →
      messagesMonotone (round_robin_loop gen topic participants gain now fuel iter messages) := by
  intro fuel
  induction fuel with
  | zero => exact fun iter messages hm _ => hm
  | succ n ih =>
    intro iter messages hm hb
    rw [round_robin_loop]
    obtain ⟨hm1, hb1⟩ := round_robin_statements_inv gen topic gain now iter
      participants.length participants messages hm hb
    exact ih (iter + 1) _ hm1 (bound_mono hb1 (Nat.le_succ iter))

/-- C7 (confirmed): for every format and every run that returns, the
sequence of `iteration` indices across the transcript is monotonically
non-decreasing — round-0 openings first, then each round's entries carrying
that round's index. -/
theorem round_index_monotone (gen : GenOracle) (topic : String) (format : DebateFormat)
    (participants : List ParticipantConfig) (max_iterations : Nat) (gain : Int) (now : String) :
    resultOk (fun r => messagesMonotone r.messages)
      (run_debate gen topic format participants max_iterations gain now) := by
  cases format with
  | ONE_TO_ONE =>
    match participants with
    | [] => trivial
    | [_] => trivial
    | [d1, d2] =>
      match max_iterations with
      | 0 => trivial
      | m + 1 =>
        exact one_to_one_loop_mono gen topic d1 d2 gain now (m + 1) 1
          { messages := [], key_statements := [], previous_context := "", opponent_statement := "" }
          List.Pairwise.nil (fun a ha => absurd ha (List.not_mem_nil a))
    | _ :: _ :: _ :: _ => trivial
  | CROSS_EXAM =>
    match participants with
    | [] => trivial
    | [_] => trivial
    | [examiner, examinee] =>
      refine cross_exam_loop_mono gen topic examiner examinee gain now max_iterations 1
        [{ speaker := examinee.label
         , content := generate_with_mode_tone gen ("State your position on: " ++ topic) examinee gain
         , role := examinee.role, iteration := 0, timestamp := now }]
        (List.pairwise_singleton _ _) ?_
      intro a ha
      rcases List.mem_singleton.mp ha with rfl
      exact Nat.zero_le 1
    | _ :: _ :: _ :: _ => trivial
  | MANY_ON_ONE =>
    match participants with
    | [] => trivial
    | examinee :: examiners =>
      refine many_on_one_loop_mono gen topic examinee examiners gain now max_iterations 1
        [{ speaker := examinee.label
         , content := generate_with_mode_tone gen ("State your position on: " ++ topic) examinee gain
         , role := examinee.role, iteration := 0, timestamp := now }]
        (List.pairwise_singleton _ _) ?_
      intro a ha
      rcases List.mem_singleton.mp ha with rfl
      exact Nat.zero_le 1
  | PANEL =>
    match participants with
    | [] => trivial
    | moderator :: panelists =>
      simp only [run_debate, run_panel_discussion]
      split_ifs <;>
        first
          | trivial
          | (simp only [resultOk]
             refine panel_loop_mono gen topic moderator panelists _ gain now max_iterations 1 _
               (List.pairwise_singleton _ _) ?_
             intro a ha
             rcases List.mem_singleton.mp ha with rfl
             exact Nat.zero_le 1)
  | ROUND_ROBIN =>
    exact round_robin_loop_mono gen topic participants gain now max_iterations 1 []
      List.Pairwise.nil (fun a ha => absurd ha (List.not_mem_nil a))
